import Mathlib

/-!
File overview.

# Verification of the argo-data-fetch reconciliation engine

A shallow embedding of the reconciliation / bulk-transfer engine of the
repository (modules `file_exisitance_checking.py`, `index_file_download.py`,
`netcdf_file_dowload.py`).  Python strings are embedded as `List Char`;
the local filesystem is a map from paths to `Option Nat` (`none` = the file
does not exist, `some n` = the file exists with `n` bytes); HTTP servers are
embedded as explicit response oracles.  Machine I/O (sessions, sleeping,
directory creation) has no observable effect on the properties considered
and is dropped; everything else follows the Python line by line.
-/

namespace Argo

/-- A Python string (a path, a URL, ...), embedded as its character list. -/
abbrev Path := List Char

/-! Section: Python primitives

`str.replace(old, new)` replaces every non-overlapping occurrence of `old`
left to right.  The recursion consumes at least one character per step
(Python raises on an empty pattern; the engine only ever passes `".nnc"`),
so running it with `s.length` fuel computes the full replacement; the fuel
form keeps the definition structurally recursive. -/
def replaceAllFuel (old new : List Char) : Nat → List Char → List Char
  | 0, s => s
  | _ + 1, [] => []
  | fuel + 1, c :: rest =>
    if old.isPrefixOf (c :: rest) then
      new ++ replaceAllFuel old new fuel (rest.drop (old.length - 1))
    else
      c :: replaceAllFuel old new fuel rest

/-- Python `s.replace(old, new)` for a non-empty pattern `old`. -/
def replaceAll (old new s : List Char) : List Char :=
  if old = [] then s else replaceAllFuel old new s.length s

/-- The suffix of `s` strictly after the first (leftmost) occurrence of the
non-empty separator `sep`, scanning left to right; `none` when `sep` does
not occur in `s`. -/
def afterFirst (sep : List Char) : List Char → Option (List Char)
  | [] => none
  | c :: rest =>
    if sep.isPrefixOf (c :: rest) then some (rest.drop (sep.length - 1))
    else afterFirst sep rest

/-- Iterate `afterFirst`; each step strictly shrinks the string, so
`s.length` fuel reaches a fixed point. -/
def splitLastFuel (sep : List Char) : Nat → List Char → List Char
  | 0, s => s
  | fuel + 1, s =>
    match afterFirst sep s with
    | none => s
    | some t => splitLastFuel sep fuel t

/-- Python `s.split(sep)[-1]` for a non-empty `sep`: the suffix after the
last of the non-overlapping left-to-right occurrences of `sep` (the whole
string when `sep` does not occur). -/
def splitLast (sep s : List Char) : List Char :=
  splitLastFuel sep s.length s

/-! Section: Path normalizer — `clean_file_path` (file_exisitance_checking.py) -/

/-- Source:
```python
def clean_file_path(file_path):
    if file_path.startswith("data/data/"):
        file_path = file_path[len("data/"):]   # drop 5 chars
    elif file_path.startswith("data/"):
        file_path = file_path[len("data/"):]
    if not file_path.endswith(".nc"):
        file_path = file_path.replace(".nnc", ".nc")
    return file_path
``` -/
def clean_file_path (file_path : Path) : Path :=
  let fp :=
    if ("data/data/".data).isPrefixOf file_path then file_path.drop 5
    else if ("data/".data).isPrefixOf file_path then file_path.drop 5
    else file_path
  if (".nc".data).isSuffixOf fp then fp
  else replaceAll (".nnc".data) (".nc".data) fp

/-- The single-pass form `clean_file_path` actually computes: one leading
`"data/"` is dropped whether duplicated or not, and `.nnc` is replaced
everywhere in the string. -/
def cleanSimplified (file_path : Path) : Path :=
  let fp := if ("data/".data).isPrefixOf file_path then file_path.drop 5
            else file_path
  if (".nc".data).isSuffixOf fp then fp
  else replaceAll (".nnc".data) (".nc".data) fp

/-! Section: Local presence checkers

The filesystem is a map `Path → Option Nat`: `none` when `os.path.exists`
is false, `some n` when the file exists with `os.path.getsize = n`. -/

/-- `is_file_valid` (file_exisitance_checking.py):
`os.path.exists(local_path) and os.path.getsize(local_path) > 0`,
applied to the stat result of the local path. -/
def is_file_valid (localSize : Option Nat) : Bool :=
  match localSize with
  | none => false
  | some n => decide (0 < n)

/-- `is_file_complete` (index_file_download.py).  `head` is the outcome of
the `HEAD` request: `some m` when it returned status 200 with
`int(headers.get('content-length', 0)) = m`, and `none` when it raised or
returned a non-200 status (both fall to the final `return False`). -/
def is_file_complete (localSize head : Option Nat) : Bool :=
  match localSize with
  | none => false
  | some l =>
    match head with
    | none => false
    | some m => (decide (0 < m) && decide (l = m)) || (decide (m = 0) && decide (l = 0))

/-- The classification §4.2 of the specification ascribes to the presence
check, as a boolean: Complete iff the file exists and (no expected size is
known and size > 0, or the expected size is known and equals the local
size — the `expected == 0 ∧ local == 0` disjunct is the `m = 0` case). -/
def completeSpec (localSize expected : Option Nat) : Bool :=
  match localSize with
  | none => false
  | some l =>
    match expected with
    | none => decide (0 < l)
    | some m => decide (l = m) || (decide (m = 0) && decide (l = 0))

/-! Section: The async NetCDF downloader — `download_nc_file`
(file_exisitance_checking.py)

```python
RETRIES = 0
async def download_nc_file(session, url, local_path, retries=RETRIES):
    os.makedirs(os.path.dirname(local_path), exist_ok=True)
    for _ in range(retries):
        try:
            async with session.get(url, ...) as resp:
                if resp.status == 200:
                    async with aiofiles.open(local_path, 'wb') as f:
                        ... write chunks ...
                    return True
                elif resp.status == 404:
                    return False
        except:
            await asyncio.sleep(1)
    return False
```

One loop iteration is one `session.get`; the server is an oracle from the
attempt number to what that attempt observes. -/

/-- What one `session.get` of the async downloader can observe. -/
inductive NcAttempt
  /-- Status 200 and the whole body of `body` bytes is written (`'wb'`). -/
  | ok (body : Nat)
  /-- Status 200, the file is opened `'wb'` (truncating it), `written`
  bytes are written, then an exception is raised mid-stream. -/
  | okPartial (written : Nat)
  /-- Status 404. -/
  | notFound
  /-- Any other status: the `if/elif` falls through and the loop simply
  continues (no sleep). -/
  | status
  /-- The request itself raises (timeout, connection reset). -/
  | exn
deriving DecidableEq

/-- Transient (retried) attempt outcomes: everything except a final
status-200 completion or a 404. -/
def NcAttempt.transient : NcAttempt → Bool
  | .okPartial _ => true
  | .status => true
  | .exn => true
  | _ => false

/-- The module-level default retry budget: `RETRIES = 0`. -/
def RETRIES : Nat := 0

/-- The retry loop of `download_nc_file`: `i` is the attempt number fed to
the server oracle, `budget` the remaining iterations of
`range(retries)`, `st` the current state of the local file.  Returns the
boolean result and the final file state. -/
def download_nc_file_go (server : Nat → NcAttempt) :
    Nat → Nat → Option Nat → Bool × Option Nat
  | 0, _, st => (false, st)
  | budget + 1, i, st =>
    match server i with
    | .ok body => (true, some body)
    | .okPartial written => download_nc_file_go server budget (i + 1) (some written)
    | .notFound => (false, st)
    | .status => download_nc_file_go server budget (i + 1) st
    | .exn => download_nc_file_go server budget (i + 1) st

/-- `download_nc_file(session, url, local_path, retries)` against the
server oracle, starting from local file state `st`. -/
def download_nc_file (server : Nat → NcAttempt) (retries : Nat)
    (st : Option Nat) : Bool × Option Nat :=
  download_nc_file_go server retries 0 st

/-! Section: The scanner-path downloader — `UltraFastArgoDownloader.download_file`
(netcdf_file_dowload.py)

```python
async def download_file(self, session, semaphore, file_url, local_path):
    async with semaphore:
        try:
            os.makedirs(...)
            if os.path.exists(local_path):
                return True
            async with session.get(file_url, ...) as response:
                if response.status == 200:
                    ... write chunks 'wb' ...
                    return True
                return False
        except:
            return False
```
A single request, no retry; any existing file — whatever its size — is
skipped. -/
def scan_download_file (resp : NcAttempt) (st : Option Nat) : Bool × Option Nat :=
  if st.isSome then (true, st)
  else
    match resp with
    | .ok body => (true, some body)
    | .okPartial written => (false, some written)
    | .notFound => (false, st)
    | .status => (false, st)
    | .exn => (false, st)

/-! Section: The index-file downloader — `download_file` (index_file_download.py)

```python
MAX_RETRIES = 3
def download_file(url, save_path):
    os.makedirs(...)
    if is_file_complete(save_path, url):
        return                                  # skip
    for attempt in range(1, MAX_RETRIES + 1):
        try:
            existing_size = getsize(save_path) if exists(save_path) else 0
            headers = {}; mode = "wb"
            if existing_size > 0:
                headers = {"Range": f"bytes={existing_size}-"}; mode = "ab"
            with requests.get(url, stream=True, headers=headers) as r:
                if r.status_code == 416:
                    if exists(save_path): os.remove(save_path)
                    with requests.get(url, stream=True) as r2:   # fresh, "wb"
                        r2.raise_for_status()
                        write body
                elif r.status_code in [200, 206]:
                    write body (mode)
                else:
                    r.raise_for_status()
            return                              # success
        except Exception:
            if exists(save_path): os.remove(save_path)
            time.sleep(5)
    print("Failed ...")
```
A request either carries a `Range: bytes=n-` header (`some n`) or not
(`none`); the server answers with one of: -/
inductive Resp
  /-- Status 200 and a body of `body` bytes streamed fully. -/
  | body200 (body : Nat)
  /-- Status 206 and a body of `body` bytes streamed fully. -/
  | body206 (body : Nat)
  /-- Status 416 (range not satisfiable). -/
  | s416
  /-- Any status ≥ 400 other than 416 (404, 5xx, ...): `raise_for_status`
  raises. -/
  | httpError
  /-- The request itself raises (timeout, connection reset). -/
  | errConn
  /-- A 2xx streaming response that raises after `written` bytes are
  written by this `write`. -/
  | streamExn (written : Nat)
  /-- A 2xx status other than 200/206 (e.g. 204): in the main branch
  nothing is written and the function returns; in the 416 fresh branch the
  file is still opened and the empty body written. -/
  | odd2xx
deriving DecidableEq

/-- Transient outcomes of a plain (`none`) request of the index
downloader: the ones that land in the `except` handler. -/
def Resp.transient : Resp → Bool
  | .httpError => true
  | .errConn => true
  | .streamExn _ => true
  | _ => false

/-- What one loop iteration ends in: a `return` (with the final file
state) or an exception reaching the `except` handler (with the file state
at raise time — the handler then removes the file). -/
inductive AttemptResult
  | ret (st : Option Nat)
  | raise (st : Option Nat)
deriving DecidableEq

/-- The fresh restart inside the 416 branch: the partial file has been
removed, a plain request is issued, `raise_for_status` is called, and the
body is written `'wb'`. -/
def fresh_attempt (server : Option Nat → Resp) : AttemptResult :=
  match server none with
  | .body200 body => .ret (some body)
  | .body206 body => .ret (some body)
  | .s416 => .raise none
  | .httpError => .raise none
  | .errConn => .raise none
  | .streamExn written => .raise (some written)
  | .odd2xx => .ret (some 0)

/-- One iteration of the retry loop of `download_file`, from local file
state `st`.  `existing_size > 0` selects a ranged request and append
mode; the 416 check applies to either kind of request. -/
def dl_attempt (server : Option Nat → Resp) (st : Option Nat) : AttemptResult :=
  let existing := st.getD 0
  if 0 < existing then
    match server (some existing) with
    | .body200 body => .ret (some (existing + body))
    | .body206 body => .ret (some (existing + body))
    | .s416 => fresh_attempt server
    | .httpError => .raise st
    | .errConn => .raise st
    | .streamExn written => .raise (some (existing + written))
    | .odd2xx => .ret st
  else
    match server none with
    | .body200 body => .ret (some body)
    | .body206 body => .ret (some body)
    | .s416 => fresh_attempt server
    | .httpError => .raise st
    | .errConn => .raise st
    | .streamExn written => .raise (some written)
    | .odd2xx => .ret st

/-- `MAX_RETRIES = 3` (index_file_download.py). -/
def MAX_RETRIES : Nat := 3

/-- The `for attempt in range(1, MAX_RETRIES + 1)` loop: the server oracle
is indexed by the attempt number `i`; on an exception the handler removes
the file (state becomes `none`) and the next attempt starts.  Returns
whether a success `return` was reached, plus the final file state. -/
def download_file_loop (server : Nat → Option Nat → Resp) :
    Nat → Nat → Option Nat → Bool × Option Nat
  | 0, _, st => (false, st)
  | budget + 1, i, st =>
    match dl_attempt (server i) st with
    | .ret st' => (true, st')
    | .raise _ => download_file_loop server budget (i + 1) none

/-- `download_file(url, save_path)`: skip when `is_file_complete`, else run
the retry loop with budget `MAX_RETRIES`. -/
def download_file (server : Nat → Option Nat → Resp) (head st : Option Nat) :
    Bool × Option Nat :=
  if is_file_complete st head then (true, st)
  else download_file_loop server MAX_RETRIES 0 st

/-! Section: Catalog query and reconciliation — `query_index` / `fetch_data`
(file_exisitance_checking.py) -/

/-- `query_index`: the SQL rows are the input; the function returns
`list({clean_file_path(fp[0]) for fp in results})` — the cleaned paths as
a set.  We keep the first occurrence of each (Python's set order is
arbitrary; only the underlying set matters). -/
def query_index (rows : List Path) : List Path :=
  (rows.map clean_file_path).dedup

/-- `os.path.join(LOCAL_FOLDER, region, file_path.split(f"{region}/")[-1])`
with `LOCAL_FOLDER = "./argo_float_data"`, for the relative tails the
engine produces (`join` is separator concatenation as long as no later
component starts with `/`). -/
def local_path_of (region fp : Path) : Path :=
  "./argo_float_data/".data ++ region ++ "/".data ++
    splitLast (region ++ "/".data) fp

/-- The printed run summary of `fetch_data`. -/
structure RunSummary where
  expectedTotal : Nat
  alreadyPresent : Nat
  downloaded : Nat
  failed : Nat
deriving DecidableEq, Repr

/-- Everything observable about one `fetch_data` run: the summary it
prints, the `local_paths` list it returns, the local paths of the
download tasks it hands to the scheduler, and the filesystem afterwards. -/
structure FetchResult where
  summary : RunSummary
  local_paths : List Path
  /-- The catalog paths (`file_path`) of the entries of `download_tasks`. -/
  sources : List Path
  /-- The local paths (`local_path`) of the entries of `download_tasks`. -/
  tasks : List Path
  fs' : Path → Option Nat

/-- Apply the file writes of the gathered downloads to the filesystem
(each download task writes only its own `local_path`; the fold order
stands in for the interleaving, which is irrelevant when local paths are
distinct). -/
def apply_writes (writes : List (Path × Option Nat)) (fs : Path → Option Nat) :
    Path → Option Nat :=
  writes.foldl (fun acc w => fun p => if p = w.1 then w.2 else acc p) fs

/-- `fetch_data(region, year, ...)` after the catalog query: `files` is the
deduplicated cleaned path list, `fs` the local filesystem, `server fp` the
remote's behaviour for the URL of `fp`, `retries` the budget passed to
`download_nc_file` (the code passes none, i.e. `RETRIES`).

```python
for file_path in files:
    local_path = os.path.join(LOCAL_FOLDER, region, file_path.split(f"{region}/")[-1])
    local_paths.append(local_path)
    if not is_file_valid(local_path):
        download_tasks.append((url, local_path))
already_existing = total_files - len(download_tasks)
results = await asyncio.gather(*tasks)        # one download_nc_file each
for i, success in enumerate(results):
    if success: downloaded_count += 1
    else: failed_downloads.append(...)
return local_paths
``` -/
def fetch_data (region : Path) (files : List Path) (fs : Path → Option Nat)
    (server : Path → Nat → NcAttempt) (retries : Nat) : FetchResult :=
  let localOf : Path → Path := local_path_of region
  let local_paths := files.map localOf
  let download_tasks := files.filter fun fp => ! is_file_valid (fs (localOf fp))
  let results := download_tasks.map fun fp =>
    (fp, download_nc_file (server fp) retries (fs (localOf fp)))
  let downloaded := (results.filter fun r => r.2.1).length
  let failed := (results.filter fun r => ! r.2.1).length
  { summary :=
      { expectedTotal := files.length
        alreadyPresent := files.length - download_tasks.length
        downloaded := downloaded
        failed := failed }
    local_paths := local_paths
    sources := download_tasks
    tasks := download_tasks.map localOf
    fs' := apply_writes (results.map fun r => (localOf r.1, r.2.2)) fs }

/-! Section: Scanner planning — `scan_and_download` (netcdf_file_dowload.py)

`parse_apache_directory_fast` returns one `{'name': .., 'href': ..}` entry
per anchor the regex matches — duplicate anchors give duplicate entries.
`scan_and_download` then builds `all_files` by mapping each entry to a
`(file_url, local_path)` pair with no de-duplication anywhere:

```python
for file_info in files:
    file_url = year_url + file_info['href']
    local_path = os.path.join("argo_float_data", self.region, str(year), file_info['name'])
    all_files.append((file_url, local_path))
download_tasks = [self.download_file(session, semaphore, u, p) for u, p in all_files]
``` -/

/-- One anchor match of `parse_apache_directory_fast`. -/
structure ScanEntry where
  href : Path
  name : Path
deriving DecidableEq

/-- The `(file_url, local_path)` transfer tasks `scan_and_download` builds
from the entries of one directory listing rooted at `year_url`, with local
directory prefix `localdir` (= `argo_float_data/region/year`). -/
def scan_year_tasks (year_url localdir : Path) (entries : List ScanEntry) :
    List (Path × Path) :=
  entries.map fun e => (year_url ++ e.href, localdir ++ "/".data ++ e.name)

/-! Section: Concrete instances used in scenario theorems -/

/-- The local path `fetch_data` computes for the catalog record
`"indian/a.nc"` in region `"indian"`. -/
def pA : Path := "./argo_float_data/indian/a.nc".data

/-- A filesystem holding only a 3-byte `argo_float_data/indian/a.nc`. -/
def fsA3 : Path → Option Nat :=
  fun p => if p = pA then some 3 else none

/-- A server whose first attempt streams 7 bytes then dies mid-stream, and
whose later attempts raise before any write. -/
def partialThenErr : Nat → NcAttempt :=
  fun i => if i = 0 then .okPartial 7 else .exn

/-- An index-file server that honours resumption: a plain request streams
the whole `M`-byte file; a ranged request from offset `n < M` answers 206
with the remaining `M - n` bytes; a ranged request at or past the end
answers 416. -/
def goodServer (M : Nat) : Option Nat → Resp
  | none => .body200 M
  | some n => if n < M then .body206 (M - n) else .s416

/-- An index-file server that rejects every ranged request with 416 but
serves the whole `M`-byte file on a plain request. -/
def rejectServer (M : Nat) : Option Nat → Resp
  | none => .body200 M
  | some _ => .s416

/-- An async-downloader server that raises on attempts 0 and 1 and streams
a 6-byte body on attempt 2. -/
def failTwiceNc : Nat → NcAttempt :=
  fun i => if i < 2 then .exn else .ok 6

/-- An index-file server whose attempts 0 and 1 raise on connection and
whose attempt 2 serves a 6-byte body. -/
def failTwiceIdx : Nat → Option Nat → Resp :=
  fun i _ => if i < 2 then .errConn else .body200 6

/-! Section: General helper lemmas -/

/-- Splitting a list by a boolean predicate preserves its length. -/
theorem length_filter_add_length_filter_not (l : List α) (p : α → Bool) :
    (l.filter p).length + (l.filter fun a => ! p a).length = l.length := by
  induction l with
  | nil => rfl
  | cons a t ih =>
    by_cases h : p a <;> simp [List.filter_cons, h] <;> omega

/-- A path written by none of the gathered downloads keeps its prior
state. -/
theorem apply_writes_not_mem (writes : List (Path × Option Nat))
    (fs : Path → Option Nat) (p : Path) (h : ∀ w ∈ writes, w.1 ≠ p) :
    apply_writes writes fs p = fs p := by
  induction writes generalizing fs with
  | nil => rfl
  | cons w ws ih =>
    have hw : w.1 ≠ p := h w (List.mem_cons_self w ws)
    have hrec := ih (fun q => if q = w.1 then w.2 else fs q)
      (fun x hx => h x (List.mem_cons_of_mem w hx))
    simp only [apply_writes, List.foldl_cons] at *
    rw [hrec]
    exact if_neg (fun he => hw he.symm)

/-- A transient attempt of the async downloader consumes one budget unit
and moves the file to the partial state the attempt left behind. -/
theorem nc_go_transient_step (srv : Nat → NcAttempt) (b i : Nat) (st : Option Nat)
    (h : (srv i).transient = true) :
    download_nc_file_go srv (b + 1) i st
      = download_nc_file_go srv b (i + 1)
          (match srv i with | .okPartial k => some k | _ => st) := by
  cases e : srv i <;> simp [NcAttempt.transient, e] at h <;>
    simp [download_nc_file_go, e]

/-- A transient plain request of the index downloader raises out of the
attempt. -/
theorem dl_attempt_transient_raise (s : Option Nat → Resp)
    (h : (s none).transient = true) :
    dl_attempt s none
      = .raise (match s none with | .streamExn k => some k | _ => none) := by
  cases e : s none <;> simp [Resp.transient, e] at h <;> simp [dl_attempt, e]

/-- The `except` handler of the index downloader removes the partial file
before the next attempt starts. -/
theorem loop_raise_resets (isrv : Nat → Option Nat → Resp) (b i : Nat)
    (st st' : Option Nat) (h : dl_attempt (isrv i) st = .raise st') :
    download_file_loop isrv (b + 1) i st = download_file_loop isrv b (i + 1) none := by
  simp [download_file_loop, h]

/-! Section: Claim C1 -/

/-- C1: after any run of `fetch_data` on the catalog query result — for
any filesystem, server behaviour and retry budget, so in particular for
all-present, all-missing and all-failing distributions — the printed
counters satisfy `alreadyPresent + downloaded + failed = expectedTotal`,
and `expectedTotal` is the number of deduplicated normalized paths. -/
theorem C1_counter_consistency (region : Path) (rows : List Path)
    (fs : Path → Option Nat) (server : Path → Nat → NcAttempt) (retries : Nat) :
    let files := query_index rows
    let r := fetch_data region files fs server retries
    r.summary.alreadyPresent + r.summary.downloaded + r.summary.failed
        = r.summary.expectedTotal
    ∧ r.summary.expectedTotal = files.length ∧ files.Nodup := by
  refine ⟨?_, rfl, List.nodup_dedup _⟩
  simp only [fetch_data]
  set files := query_index rows with hf
  set tasks := files.filter fun fp => ! is_file_valid (fs (local_path_of region fp)) with ht
  have hle : tasks.length ≤ files.length := List.length_filter_le _ _
  have hsum := length_filter_add_length_filter_not
    (tasks.map fun fp => (fp, download_nc_file (server fp) retries (fs (local_path_of region fp))))
    (fun r => r.2.1)
  simp only [List.length_map] at hsum
  simp only [List.filter_map, List.length_map] at *
  omega

/-! Section: Claim C2 -/

/-- C2 counterexample: the claim says a transient failure is retried "with
partially written bytes deleted".  In `download_nc_file`, attempt 0 gets
status 200, writes 7 bytes, and dies mid-stream — a transient failure —
and attempt 1 fails too; yet after the run the 7 partially written bytes
are still on disk (`some 7`), not deleted. -/
theorem C2_counterexample :
    (partialThenErr 0).transient = true ∧ (partialThenErr 1).transient = true
    ∧ download_nc_file partialThenErr 2 none = (false, some 7) := by
  refine ⟨rfl, rfl, ?_⟩
  decide

/-- C2 amended: transient failures (timeout, reset, non-2xx other than
404) are retried up to the attempt budget, and a transfer failing twice
transiently then succeeding on the third attempt with budget 3 is a
success — in both downloaders.  But only the index-file downloader deletes
partially written bytes between attempts (its `except` handler removes the
file); the async NetCDF downloader leaves partial bytes in place until a
later attempt reaches status 200 and truncates them. -/
theorem C2_retry_amended :
    (∀ (M : Nat) (srv : Nat → NcAttempt),
      (srv 0).transient = true → (srv 1).transient = true → srv 2 = .ok M →
      download_nc_file srv 3 none = (true, some M))
    ∧ (∀ (M : Nat) (isrv : Nat → Option Nat → Resp) (head : Option Nat),
      (isrv 0 none).transient = true → (isrv 1 none).transient = true →
      isrv 2 none = .body200 M →
      download_file isrv head none = (true, some M))
    ∧ (∀ (isrv : Nat → Option Nat → Resp) (b i : Nat) (st st' : Option Nat),
      dl_attempt (isrv i) st = .raise st' →
      download_file_loop isrv (b + 1) i st = download_file_loop isrv b (i + 1) none) := by
  refine ⟨fun M srv h0 h1 h2 => ?_, fun M isrv head h0 h1 h2 => ?_, loop_raise_resets⟩
  · unfold download_nc_file
    rw [show (3 : Nat) = 2 + 1 from rfl, nc_go_transient_step srv 2 0 none h0]
    rw [show (2 : Nat) = 1 + 1 from rfl, nc_go_transient_step srv 1 1 _ h1]
    simp [download_nc_file_go, h2]
  · have e1 := dl_attempt_transient_raise (isrv 0) h0
    have e2 := dl_attempt_transient_raise (isrv 1) h1
    show (if is_file_complete none head then ((true : Bool), none)
          else download_file_loop isrv MAX_RETRIES 0 none) = (true, some M)
    rw [show is_file_complete none head = false from rfl]
    simp only [Bool.false_eq_true, if_false]
    rw [show MAX_RETRIES = 2 + 1 from rfl, loop_raise_resets isrv 2 0 none _ e1]
    rw [show (2 : Nat) = 1 + 1 from rfl, loop_raise_resets isrv 1 1 none _ e2]
    simp [download_file_loop, dl_attempt, h2]

/-- C2 witness: the amended theorem applied to concrete fail-twice servers
and to a concrete raising first attempt. -/
theorem C2_retry_amended_witness :
    download_nc_file failTwiceNc 3 none = (true, some 6)
    ∧ download_file failTwiceIdx none none = (true, some 6)
    ∧ download_file_loop failTwiceIdx 3 0 none = download_file_loop failTwiceIdx 2 1 none :=
  ⟨C2_retry_amended.1 6 failTwiceNc (by decide) (by decide) (by decide),
   C2_retry_amended.2.1 6 failTwiceIdx none (by decide) (by decide) (by decide),
   C2_retry_amended.2.2 failTwiceIdx 2 0 none none (by decide)⟩

/-! Section: Claim C3 -/

/-- C3 counterexample: the claim says the leading root segment is
collapsed only when duplicated (a single `"data/"` is kept) and that the
corrupted suffix is rewritten only when it is the ending.  In fact
`clean_file_path` strips a single, non-duplicated `"data/"` too, and
rewrites `".nnc"` occurrences that are not the ending. -/
theorem C3_counterexample :
    clean_file_path ("data/indian/a.nc".data) = "indian/a.nc".data
    ∧ clean_file_path ("b.nnc.txt".data) = "b.nc.txt".data := by
  constructor <;> decide

/-- C3 amended: `clean_file_path` is a total pure function on strings that
(1) drops one leading `"data/"` whether or not it is duplicated (so a path
starting `"data/data/"` loses exactly the first occurrence), then (2) when
the result does not end in `".nc"`, replaces every occurrence of `".nnc"`
(ending or not) by `".nc"`. -/
theorem C3_normalizer_amended (fp : Path) :
    clean_file_path fp = cleanSimplified fp := by
  unfold clean_file_path cleanSimplified
  by_cases h : ("data/data/".data).isPrefixOf fp
  · have h2 : ("data/".data).isPrefixOf fp := by
      rw [ List.isPrefixOf_iff_prefix] at h ⊢
      exact List.IsPrefix.trans ⟨"data/".data, rfl⟩ h
    simp [h, h2]
  · simp [h]

/-! Section: Claim C4 -/

/-- C4 counterexample: the claim says an existing zero-length file is
Incomplete and is re-fetched, and that with no known expected size a
non-empty file is Complete.  The scanner-path downloader skips any
existing file — a zero-length file included — without any request
(returning success with the file still empty), and `is_file_complete`
reports a non-empty file incomplete when the HEAD request fails (no
expected size known). -/
theorem C4_counterexample :
    scan_download_file (.ok 10) (some 0) = (true, some 0)
    ∧ completeSpec (some 0) none = false
    ∧ is_file_complete (some 5) none = false
    ∧ completeSpec (some 5) none = true := by
  decide

/-- C4 amended: `is_file_valid` (no expected size) and `is_file_complete`
with a successful HEAD (`some m`) classify exactly as the claim states;
but when the expected size cannot be obtained (HEAD failed),
`is_file_complete` classifies Incomplete even for a non-empty file, and
the scanner-path downloader treats bare existence as already-present, so
an existing zero-length or size-mismatched file there is not re-fetched. -/
theorem C4_presence_amended :
    (∀ sz, is_file_valid sz = completeSpec sz none)
    ∧ (∀ l m, is_file_complete (some l) (some m) = completeSpec (some l) (some m))
    ∧ (∀ m, is_file_complete none m = false)
    ∧ (∀ l, is_file_complete (some l) none = false)
    ∧ (∀ resp n, scan_download_file resp (some n) = (true, some n)) := by
  refine ⟨fun sz => by cases sz <;> rfl, fun l m => ?_, fun m => by cases m <;> rfl,
    fun l => rfl, fun resp n => rfl⟩
  cases m <;> simp [is_file_complete, completeSpec]

/-! Section: Claim C5 -/

/-- C5 counterexample: the claim says every transfer over a partial local
file of `N` bytes with remote size `M > N` resumes from offset `N` and
ends with `M` bytes.  The scanner-path downloader, handed a transfer task
for a 5-byte partial file with a 10-byte remote, issues no request at all
and returns success with the file still at 5 bytes; and the catalog
planner (`fetch_data`) does not even create a task for a non-empty partial
file — the file stays at 5 bytes instead of reaching 10. -/
theorem C5_counterexample :
    scan_download_file (.ok 10) (some 5) = (true, some 5)
    ∧ (fetch_data ("indian".data) ["indian/a.nc".data] (fun _ => some 5)
        (fun _ _ => .ok 10) 3).tasks = []
    ∧ (fetch_data ("indian".data) ["indian/a.nc".data] (fun _ => some 5)
        (fun _ _ => .ok 10) 3).fs' pA = some 5 := by
  refine ⟨by decide, by decide, by decide⟩

/-- C5 amended: only the index-file downloader resumes.  There, a partial
local file of `N > 0` bytes against a remote of size `M > N` yields a
ranged request from offset `N` answered with the remaining `M - N` bytes,
which are appended so the final size is `M`; and when the remote rejects
resumption with 416, the partial file is discarded and the transfer
restarts from zero exactly once within the same attempt (budget 1 already
suffices).  The NetCDF transfer paths never resume: the scanner downloader
skips existing files and the catalog planner treats non-empty files as
complete. -/
theorem C5_resume_amended (N M : Nat) (hN : 0 < N) (hNM : N < M) :
    download_file (fun _ => goodServer M) (some M) (some N) = (true, some M)
    ∧ download_file (fun _ => rejectServer M) (some M) (some N) = (true, some M)
    ∧ download_file_loop (fun _ => rejectServer M) 1 0 (some N) = (true, some M) := by
  have hne : N ≠ M := Nat.ne_of_lt hNM
  have hskip : is_file_complete (some N) (some M) = false := by
    simp [is_file_complete, hne]
    omega
  refine ⟨?_, ?_, ?_⟩
  · show (if is_file_complete (some N) (some M) then ((true : Bool), some N)
        else download_file_loop (fun _ => goodServer M) MAX_RETRIES 0 (some N)) = (true, some M)
    rw [hskip]
    simp [MAX_RETRIES, download_file_loop, dl_attempt, goodServer, hN, hNM,
      Nat.add_sub_cancel' (Nat.le_of_lt hNM)]
  · show (if is_file_complete (some N) (some M) then ((true : Bool), some N)
        else download_file_loop (fun _ => rejectServer M) MAX_RETRIES 0 (some N)) = (true, some M)
    rw [hskip]
    simp [MAX_RETRIES, download_file_loop, dl_attempt, rejectServer, hN, fresh_attempt]
  · simp [download_file_loop, dl_attempt, rejectServer, hN, fresh_attempt]

/-- C5 witness: the amended resume theorem at `N = 5`, `M = 9`. -/
theorem C5_resume_amended_witness :
    download_file (fun _ => goodServer 9) (some 9) (some 5) = (true, some 9)
    ∧ download_file (fun _ => rejectServer 9) (some 9) (some 5) = (true, some 9)
    ∧ download_file_loop (fun _ => rejectServer 9) 1 0 (some 5) = (true, some 9) :=
  C5_resume_amended 5 9 (by decide) (by decide)

/-! Section: Claim C6 -/

/-- C6 counterexample: the claim says the same canonical path never
generates two TransferTasks and no two tasks with the same `localPath`
reach the scheduler.  On the catalog path, the two distinct canonical
paths `"indian/a.nc"` and `"z/indian/a.nc"` survive deduplication yet both
map to local path `./argo_float_data/indian/a.nc`, so two tasks with the
same `localPath` are handed to the scheduler; on the scanner path a
listing with a duplicate href produces two identical tasks, since
`scan_and_download` never deduplicates. -/
theorem C6_counterexample :
    (fetch_data ("indian".data) (query_index ["indian/a.nc".data, "z/indian/a.nc".data])
        (fun _ => none) (fun _ _ => .exn) 1).tasks = [pA, pA]
    ∧ scan_year_tasks ("Y/".data) ("L".data)
        [⟨"a.nc".data, "a.nc".data⟩, ⟨"a.nc".data, "a.nc".data⟩]
      = [("Y/a.nc".data, "L/a.nc".data), ("Y/a.nc".data, "L/a.nc".data)] := by
  constructor <;> decide

/-- C6 amended: on the catalog path, remote paths are normalized and
deduplicated before planning (`query_index` output has no duplicates) and
each surviving canonical path generates at most one TransferTask (the
planner's task-source list has no duplicates); but two distinct canonical
paths may still map to one `localPath`, and the scanner path performs no
deduplication at any stage. -/
theorem C6_dedup_amended :
    (∀ rows : List Path, (query_index rows).Nodup)
    ∧ (∀ (rows : List Path) (region : Path) (fs : Path → Option Nat)
        (srv : Path → Nat → NcAttempt) (retries : Nat),
        (fetch_data region (query_index rows) fs srv retries).sources.Nodup) := by
  refine ⟨fun rows => List.nodup_dedup _, fun rows region fs srv retries => ?_⟩
  exact List.Nodup.filter _ (List.nodup_dedup _)

/-! Section: Claim C7 -/

/-- C7 counterexample: the claim says a 404 outcome is distinguished from
`Failed` in the run's accounting and that the two-file scenario yields
`notFound: 1, failed: 0`.  In the code the scenario — `a.nc` present
locally with 3 bytes, `b.nc` answered 404 — is tallied as `failed = 1`:
`fetch_data` keeps a single combined failed counter (`failed_downloads`),
with no separate not-found count. -/
theorem C7_counterexample :
    (fetch_data ("indian".data) ["indian/a.nc".data, "indian/b.nc".data] fsA3
        (fun _ _ => .notFound) 3).summary
      = { expectedTotal := 2, alreadyPresent := 1, downloaded := 0, failed := 1 } := by
  decide

/-- C7 amended: a 404 response is terminal and non-retryable — the task
returns immediately with the local file untouched, whatever budget
remains — and it does not abort the run; but the run's accounting does not
distinguish it from other failures: the two-file scenario is tallied
`alreadyPresent 1, downloaded 0, failed 1` rather than with a separate
not-found counter. -/
theorem C7_notfound_amended :
    (∀ (srv : Nat → NcAttempt) (b : Nat) (st : Option Nat), srv 0 = .notFound →
      download_nc_file srv (b + 1) st = (false, st))
    ∧ (fetch_data ("indian".data) ["indian/a.nc".data, "indian/b.nc".data] fsA3
        (fun _ _ => .notFound) 3).summary
      = { expectedTotal := 2, alreadyPresent := 1, downloaded := 0, failed := 1 } := by
  refine ⟨fun srv b st h => ?_, by decide⟩
  unfold download_nc_file
  simp [download_nc_file_go, h]

/-- C7 witness: the amended theorem's terminal-404 part applied to the
constant-404 server with 2 attempts of budget left. -/
theorem C7_notfound_amended_witness :
    download_nc_file (fun _ => .notFound) 3 (some 2) = (false, some 2) :=
  C7_notfound_amended.1 (fun _ => .notFound) 2 (some 2) rfl

/-! Section: Claim C8 -/

/-- C8: reconciliation is idempotent — when every catalog path is valid on
disk after the first run (the local store is fully populated), a second
`fetch_data` over the first run's filesystem creates zero download tasks,
and its entire result is independent of the server behaviour and retry
budget, i.e. it performs no network call beyond the catalog query. -/
theorem C8_idempotence (region : Path) (files : List Path)
    (fs : Path → Option Nat) (srv srv2 srv3 : Path → Nat → NcAttempt)
    (retries retries2 retries3 : Nat)
    (hpop : ∀ fp ∈ files,
      is_file_valid ((fetch_data region files fs srv retries).fs'
        (local_path_of region fp)) = true) :
    (fetch_data region files (fetch_data region files fs srv retries).fs' srv2 retries2).tasks = []
    ∧ fetch_data region files (fetch_data region files fs srv retries).fs' srv2 retries2
        = fetch_data region files (fetch_data region files fs srv retries).fs' srv3 retries3 := by
  set fs1 := (fetch_data region files fs srv retries).fs' with hfs1
  have hfilter :
      (files.filter fun fp => ! is_file_valid (fs1 (local_path_of region fp))) = [] := by
    rw [List.filter_eq_nil_iff]
    intro fp hfp
    simp [hpop fp hfp]
  constructor
  · simp [fetch_data, hfilter]
  · simp [fetch_data, hfilter]

/-- C8 witness: one catalog record, absent locally, downloaded as 4 bytes
by the first run; the second run plans nothing. -/
theorem C8_idempotence_witness :
    (fetch_data ("indian".data) ["indian/a.nc".data]
      (fetch_data ("indian".data) ["indian/a.nc".data] (fun _ => none)
        (fun _ _ => .ok 4) 1).fs' (fun _ _ => .exn) 1).tasks = [] :=
  (C8_idempotence ("indian".data) ["indian/a.nc".data] (fun _ => none)
    (fun _ _ => .ok 4) (fun _ _ => .exn) (fun _ _ => .notFound) 1 1 2
    (by decide)).1

/-! Section: Claim C9 -/

/-- C9 counterexample: the claim says every local path in the list a
successful run hands downstream refers to an existing, non-empty file.
With one catalog record that is absent locally and whose download fails,
the run still returns that local path in its list (so
`check_and_download_files` reports success on the non-empty list), yet the
file does not exist afterwards. -/
theorem C9_counterexample :
    (fetch_data ("indian".data) ["indian/a.nc".data] (fun _ => none)
        (fun _ _ => .exn) 1).local_paths = [pA]
    ∧ (fetch_data ("indian".data) ["indian/a.nc".data] (fun _ => none)
        (fun _ _ => .exn) 1).fs' pA = none
    ∧ (fetch_data ("indian".data) ["indian/a.nc".data] (fun _ => none)
        (fun _ _ => .exn) 1).summary.failed = 1 := by
  refine ⟨by decide, by decide, by decide⟩

/-- C9 amended: the list handed downstream contains the local path of
every catalog record, failed and not-found transfers included, and such
entries may refer to missing files; existence and non-emptiness are
guaranteed for the already-present entries, which the run never rewrites
(their path is claimed by no download task). -/
theorem C9_downstream_amended (region : Path) (files : List Path)
    (fs : Path → Option Nat) (srv : Path → Nat → NcAttempt) (retries : Nat)
    (fp : Path) (hmem : fp ∈ files)
    (hvalid : is_file_valid (fs (local_path_of region fp)) = true) :
    local_path_of region fp ∈ (fetch_data region files fs srv retries).local_paths
    ∧ is_file_valid ((fetch_data region files fs srv retries).fs'
        (local_path_of region fp)) = true := by
  refine ⟨List.mem_map_of_mem _ hmem, ?_⟩
  have hfs : (fetch_data region files fs srv retries).fs'
      = apply_writes (((files.filter fun q => ! is_file_valid (fs (local_path_of region q))).map
            fun q => (q, download_nc_file (srv q) retries (fs (local_path_of region q)))).map
          fun r => (local_path_of region r.1, r.2.2)) fs := rfl
  rw [hfs, apply_writes_not_mem]
  · exact hvalid
  · intro w hw
    obtain ⟨r, hr, rfl⟩ := List.mem_map.mp hw
    obtain ⟨fp2, hfp2, rfl⟩ := List.mem_map.mp hr
    intro heq
    have h2 : (! is_file_valid (fs (local_path_of region fp2))) = true :=
      (List.mem_filter.mp hfp2).2
    dsimp only at heq
    rw [heq, hvalid] at h2
    simp at h2

/-- C9 witness: the amended theorem applied to a 3-byte already-present
file surviving a run whose only other effect is a failed download of a
second record. -/
theorem C9_downstream_amended_witness :
    pA ∈ (fetch_data ("indian".data) ["indian/a.nc".data, "indian/b.nc".data] fsA3
        (fun _ _ => .okPartial 0) 1).local_paths
    ∧ is_file_valid ((fetch_data ("indian".data)
        ["indian/a.nc".data, "indian/b.nc".data] fsA3
        (fun _ _ => .okPartial 0) 1).fs' pA) = true :=
  C9_downstream_amended ("indian".data) ["indian/a.nc".data, "indian/b.nc".data]
    fsA3 (fun _ _ => .okPartial 0) 1 ("indian/a.nc".data) (by decide) (by decide)

/-! Section: Claim C10 -/

/-- C10: with the module default `RETRIES = 0`, `download_nc_file` returns
`False` for every input, touching neither the network (the result does not
depend on the server oracle) nor the local file (the state is returned
unchanged); consequently, in a default-configuration run every file the
planner selects for download lands in the failed tally and none in the
downloaded tally. -/
theorem C10_default_retries :
    (∀ (server : Nat → NcAttempt) (st : Option Nat),
      download_nc_file server RETRIES st = (false, st))
    ∧ (∀ (region : Path) (files : List Path) (fs : Path → Option Nat)
        (srv : Path → Nat → NcAttempt),
      (fetch_data region files fs srv RETRIES).summary.downloaded = 0
      ∧ (fetch_data region files fs srv RETRIES).summary.failed
          = (fetch_data region files fs srv RETRIES).tasks.length) := by
  refine ⟨fun _ _ => rfl, fun region files fs srv => ⟨?_, ?_⟩⟩ <;>
    simp [fetch_data, download_nc_file, RETRIES, download_nc_file_go,
      List.filter_map, Function.comp]

end Argo
